import Mathlib

/-!
Formal model of `pwr` (src/pwr.c, with src/pwr.cpp for the duplicate-implementation
comparison): a shallow embedding of its exit codes, argument parsing, profile state
store, device actuators and transition orchestrator, with theorems about their
behavior.  Every definition is translated directly from the source; comments cite
the source lines they embed.
-/

set_option maxRecDepth 4096

/-! ## Exit codes — `enum errors`, pwr.c lines 40-48 -/

def E_OK : Nat := 0
def E_NO_ACTION : Nat := 1
def E_BAD_ARG : Nat := 2
def E_CPUFREQ_WRITE : Nat := 3
def E_PWR_STATE_WRITE : Nat := 4
def E_PWR_STATE_READ : Nat := 5
def E_FORK_FAILED : Nat := 6

/-! ## Actions and parsed flags — `struct s_flags`, pwr.c lines 54-58

The C program stores a function pointer `flags.action`; we model the pointer by an
enumerated value naming which of the `action_*` functions it points to.  The
`program_name` field (only echoed in help text) is elided. -/

inductive PAction where
  | noneAction
  | perform
  | powersave
  | query
  | toggle
  | version
  | help
deriving DecidableEq

structure ParsedFlags where
  action : PAction
  no_restart : Bool
deriving DecidableEq

/-- One iteration of the argument loop of `parse_args`, pwr.c lines 276-304. -/
def parseStep (fl : ParsedFlags) (arg : String) : Except Nat ParsedFlags :=
  if arg == "perform" || arg == "pe" then Except.ok { fl with action := PAction.perform }
  else if arg == "powersave" || arg == "ps" then Except.ok { fl with action := PAction.powersave }
  else if arg == "query" || arg == "qu" then Except.ok { fl with action := PAction.query }
  else if arg == "toggle" || arg == "to" then Except.ok { fl with action := PAction.toggle }
  else if arg == "--help" then Except.ok { fl with action := PAction.help }
  else if arg == "--version" then Except.ok { fl with action := PAction.version }
  else if arg == "--norestart" || arg == "-n" then Except.ok { fl with no_restart := true }
  else Except.error E_BAD_ARG

/-- The `for (int i = 1; i < argc; i++)` loop of `parse_args` (pwr.c lines 276-304):
each recognized token updates the flags; the first unrecognized token aborts with
`E_BAD_ARG` (the `return E_BAD_ARG` in the final `else`). -/
def parseLoop (fl : ParsedFlags) : List String → Except Nat ParsedFlags
  | [] => Except.ok fl
  | a :: rest =>
    match parseStep fl a with
    | Except.ok fl2 => parseLoop fl2 rest
    | Except.error e => Except.error e

/-- `parse_args`, pwr.c lines 271-307.  `argv` includes the program name at index 0;
parsing starts at index 1.  Initial flags: `action_none`, `no_restart = 0`. -/
def parse_args (argv : List String) : Except Nat ParsedFlags :=
  parseLoop { action := PAction.noneAction, no_restart := false } (argv.drop 1)

/-- One iteration of the argument loop of the C++ `parse_args`, pwr.cpp lines
200-221.  The C++ implementation has no `query`/`qu` and no `toggle`/`to` branch. -/
def parseStepCpp (fl : ParsedFlags) (arg : String) : Except Nat ParsedFlags :=
  if arg == "perform" || arg == "pe" then Except.ok { fl with action := PAction.perform }
  else if arg == "powersave" || arg == "ps" then Except.ok { fl with action := PAction.powersave }
  else if arg == "--help" then Except.ok { fl with action := PAction.help }
  else if arg == "--version" then Except.ok { fl with action := PAction.version }
  else if arg == "--norestart" || arg == "-n" then Except.ok { fl with no_restart := true }
  else Except.error E_BAD_ARG

/-- The argument loop of the C++ `parse_args`, pwr.cpp lines 200-222. -/
def parseLoopCpp (fl : ParsedFlags) : List String → Except Nat ParsedFlags
  | [] => Except.ok fl
  | a :: rest =>
    match parseStepCpp fl a with
    | Except.ok fl2 => parseLoopCpp fl2 rest
    | Except.error e => Except.error e

/-- `parse_args`, pwr.cpp lines 195-225. -/
def parse_args_cpp (argv : List String) : Except Nat ParsedFlags :=
  parseLoopCpp { action := PAction.noneAction, no_restart := false } (argv.drop 1)

/-- The action assigned by a given action token (read off the branches of
`parse_args`, pwr.c lines 279-295); `none` for flags and unrecognized tokens. -/
def tokenToAction (arg : String) : Option PAction :=
  if arg == "perform" || arg == "pe" then some PAction.perform
  else if arg == "powersave" || arg == "ps" then some PAction.powersave
  else if arg == "query" || arg == "qu" then some PAction.query
  else if arg == "toggle" || arg == "to" then some PAction.toggle
  else if arg == "--help" then some PAction.help
  else if arg == "--version" then some PAction.version
  else none

/-! ## System state and run outcomes

A run of one `pwr` action is modelled as a function from the machine environment
and the mutable process-visible state to an outcome.  `Sys` collects the state a
run can change: the effective uid (`seteuid`), the contents of
`/var/lib/pwr_state`, the contents written to matched governor files, the child
processes launched by `fexecl`, and the lines printed to stdout by `puts`
(help/version body text is elided; only the return code of those actions matters
for the claims).  `Env` collects the machine facts a run consults. -/

structure StatResult where
  st_mode : Nat
deriving DecidableEq

structure Sys where
  euid : Nat
  stateFile : Option String
  govContents : List (String × String)
  launches : List (List String)
  out : List String
deriving DecidableEq

structure Env where
  stateFileWritable : Bool
  governorPaths : List String
  governorOpenable : String → Bool
  statOf : String → Option StatResult
  ifaces : List String
  forkOk : Bool

/-- Outcome of a run fragment: normal completion, `exit(code)` from inside
`ehandle` (pwr.c lines 33-37, carrying the state at the moment of exit), or a
crash from undefined behavior (a null-pointer dereference). -/
inductive RunResult (α : Type) where
  | ok : α → Sys → RunResult α
  | exit : Nat → Sys → RunResult α
  | crash : Sys → RunResult α
deriving DecidableEq

/-- Sequencing of run fragments: C statement sequencing, where a preceding
`exit` or crash short-circuits everything after it. -/
def RunResult.bind {α β : Type} : RunResult α → (α → Sys → RunResult β) → RunResult β
  | RunResult.ok a s, f => f a s
  | RunResult.exit c s, _ => RunResult.exit c s
  | RunResult.crash s, _ => RunResult.crash s

/-- The system state carried by an outcome (the state at normal return, at
`exit`, or at the crash point). -/
def RunResult.sys {α : Type} : RunResult α → Sys
  | RunResult.ok _ s => s
  | RunResult.exit _ s => s
  | RunResult.crash s => s

/-! ## Capability probes — pwr.c lines 98-127 -/

/-- `S_IEXEC` (= `S_IXUSR`), the owner-execute permission bit, octal 0100. -/
def S_IEXEC : Nat := 64

/-- `binary_exists`, pwr.c lines 98-102.  `statRes` is the result of
`stat(path, &status)`: `none` when `stat` fails.  The return expression in the
source is `status.st_mode & S_IEXEC != 0`; in C, `!=` binds tighter than `&`, so
this is `status.st_mode & (S_IEXEC != 0)`, that is `st_mode & 1` — the
others-execute bit, not the owner-execute bit.  The model keeps the
misparenthesized expression exactly as C evaluates it. -/
def binary_exists (statRes : Option StatResult) : Bool :=
  match statRes with
  | none => false
  | some status => Nat.land status.st_mode (if S_IEXEC != 0 then 1 else 0) != 0

/-- The wireless test of `wlan_name`, pwr.c line 112:
`ifa_name[0] == 'w' && ifa_name[1] == 'l'`.  For a one-character name the second
read hits the NUL terminator and compares unequal, which the list-pattern match
reproduces. -/
def wlMatch (n : String) : Bool :=
  match n.data with
  | 'w' :: 'l' :: _ => true
  | _ => false

/-- `wlan_name`, pwr.c lines 104-127.  The loop stops at the first interface
matching `wlMatch` (then `found = 1`).  After the loop the code unconditionally
runs `strlen(iface->ifa_name)` and `strcpy` on `iface`; when no interface
matched, `iface` is `NULL` at that point, so the run is a null-pointer
dereference (`Except.error ()`).  The `else return NULL` branch on line 125 is
therefore unreachable. -/
def wlan_name (ifaces : List String) : Except Unit (Option String) :=
  match ifaces.find? wlMatch with
  | some n => Except.ok (some n)
  | none => Except.error ()

/-! ## Actuators — pwr.c lines 130-162 -/

/-- The `fexecl` macro, pwr.c lines 21-30: fork, exec the argument list in the
child, wait in the parent.  `ehandle(pid == -1, E_FORK_FAILED)` exits when the
fork fails. -/
def fexecl_run (env : Env) (args : List String) (s : Sys) : RunResult Unit :=
  if env.forkOk then RunResult.ok () { s with launches := s.launches ++ [args] }
  else RunResult.exit E_FORK_FAILED s

/-- `restart_display_manager`, pwr.c lines 130-133. -/
def restart_display_manager (env : Env) (no_restart : Bool) (s : Sys) : RunResult Unit :=
  if !no_restart && binary_exists (env.statOf "/bin/systemctl") then
    fexecl_run env ["systemctl", "restart", "display-manager"] s
  else RunResult.ok () s

/-- `prime_select`, pwr.c lines 135-138. -/
def prime_select (env : Env) (card : String) (s : Sys) : RunResult Unit :=
  if binary_exists (env.statOf "/usr/bin/prime-select") then
    fexecl_run env ["prime-select", card] s
  else RunResult.ok () s

/-- `wifi_power`, pwr.c lines 140-147: probe the interface first (which can
crash, see `wlan_name`), then launch `iwconfig` only when the tool exists and an
interface was found. -/
def wifi_power (env : Env) (state : String) (s : Sys) : RunResult Unit :=
  match wlan_name env.ifaces with
  | Except.error _ => RunResult.crash s
  | Except.ok ifaceOpt =>
    match ifaceOpt with
    | some name =>
      if binary_exists (env.statOf "/sbin/iwconfig") then
        fexecl_run env ["iwconfig", name, "power", state] s
      else RunResult.ok () s
    | none => RunResult.ok () s

/-- The per-file loop of `cpu_governor`, pwr.c lines 154-159: for each matched
path, `fopen(path, "w")`; `ehandle(f == NULL, E_CPUFREQ_WRITE)` exits on the
first unopenable file; otherwise `fprintf(f, "%s\n", rule)` records the written
content. -/
def govWriteLoop (openable : String → Bool) (rule : String) : List String → Sys → RunResult Unit
  | [], s => RunResult.ok () s
  | p :: rest, s =>
    if openable p then
      govWriteLoop openable rule rest { s with govContents := s.govContents ++ [(p, rule ++ "\n")] }
    else RunResult.exit E_CPUFREQ_WRITE s

/-- `cpu_governor`, pwr.c lines 149-162: glob the per-core governor pattern
(`env.governorPaths` is the match list; glob errors are reported by `glob_error`
and ignored) and run the write loop over the matches. -/
def cpu_governor (env : Env) (rule : String) (s : Sys) : RunResult Unit :=
  govWriteLoop env.governorOpenable rule env.governorPaths s

/-! ## Profile state store — pwr.c lines 165-187 -/

/-- The truncation `result[strcspn(result, "\n")] = 0` of pwr.c line 177 applied
to the line returned by `getline`: the content up to the first newline. -/
def stripAtNewline (c : String) : String :=
  String.mk (c.data.takeWhile (fun ch => ch != '\n'))

/-- `get_pwr_state`, pwr.c lines 165-180.  `s.stateFile = none` models
`fopen("/var/lib/pwr_state", "r")` failing: `ehandle(pstate == NULL,
E_PWR_STATE_READ)` exits with `E_PWR_STATE_READ`, so the subsequent
`if (pstate == NULL) return "perform";` default branch on line 170 is
unreachable.  An existing but empty file makes `getline` read nothing and leave
`result` as `NULL`, so the unconditional truncation write on line 177 is
undefined behavior, modelled as a crash. -/
def get_pwr_state (s : Sys) : RunResult String :=
  match s.stateFile with
  | none => RunResult.exit E_PWR_STATE_READ s
  | some content =>
    if content = "" then RunResult.crash s
    else RunResult.ok (stripAtNewline content) s

/-- `set_pwr_state`, pwr.c lines 182-187: `ehandle(pstate == NULL,
E_PWR_STATE_WRITE)` when the file cannot be opened for writing; otherwise
`fprintf(pstate, "%s\n", state)` replaces the file contents. -/
def set_pwr_state (env : Env) (state : String) (s : Sys) : RunResult Unit :=
  if env.stateFileWritable then RunResult.ok () { s with stateFile := some (state ++ "\n") }
  else RunResult.exit E_PWR_STATE_WRITE s

/-! ## Actions — pwr.c lines 201-268 -/

/-- `action_none`, pwr.c lines 201-205: prints a usage hint on stderr (elided)
and returns `E_NO_ACTION`. -/
def action_none (s : Sys) : RunResult Nat :=
  RunResult.ok E_NO_ACTION s

/-- The four actuator calls shared by the two transitions (pwr.c lines 210-213
and 224-227), in source order: CPU governor, GPU selection, wireless power,
display-manager restart. -/
def actuator_pass (env : Env) (no_restart : Bool) (gov card wifiState : String) (s : Sys) : RunResult Unit :=
  RunResult.bind (cpu_governor env gov s) (fun _ s1 =>
  RunResult.bind (prime_select env card s1) (fun _ s2 =>
  RunResult.bind (wifi_power env wifiState s2) (fun _ s3 =>
  restart_display_manager env no_restart s3)))

/-- `action_perform`, pwr.c lines 207-219: `seteuid(0)`, the actuator pass with
the performance parameters, `set_pwr_state("perform")`, `seteuid(ruid)`, return
`E_OK`. -/
def action_perform (env : Env) (no_restart : Bool) (ruid : Nat) (s : Sys) : RunResult Nat :=
  RunResult.bind (actuator_pass env no_restart "performance" "nvidia" "off" { s with euid := 0 }) (fun _ s1 =>
  RunResult.bind (set_pwr_state env "perform" s1) (fun _ s2 =>
  RunResult.ok E_OK { s2 with euid := ruid }))

/-- `action_powersave`, pwr.c lines 221-233: `seteuid(0)`, the actuator pass
with the powersave parameters, `set_pwr_state("powersave")`, `seteuid(ruid)`,
return `E_OK`. -/
def action_powersave (env : Env) (no_restart : Bool) (ruid : Nat) (s : Sys) : RunResult Nat :=
  RunResult.bind (actuator_pass env no_restart "powersave" "intel" "on" { s with euid := 0 }) (fun _ s1 =>
  RunResult.bind (set_pwr_state env "powersave" s1) (fun _ s2 =>
  RunResult.ok E_OK { s2 with euid := ruid }))

/-- `action_query`, pwr.c lines 235-238: `puts(get_pwr_state())`, return
`E_OK`. -/
def action_query (s : Sys) : RunResult Nat :=
  RunResult.bind (get_pwr_state s) (fun st s1 =>
  RunResult.ok E_OK { s1 with out := s1.out ++ [st] })

/-- `action_toggle`, pwr.c lines 240-245: read the state; on `"powersave"` run
`action_perform`, otherwise run `action_powersave`. -/
def action_toggle (env : Env) (no_restart : Bool) (ruid : Nat) (s : Sys) : RunResult Nat :=
  RunResult.bind (get_pwr_state s) (fun st s1 =>
  if st == "powersave" then action_perform env no_restart ruid s1
  else action_powersave env no_restart ruid s1)

/-- `action_version`, pwr.c lines 247-253: prints version text (elided), returns
`E_OK`. -/
def action_version (s : Sys) : RunResult Nat :=
  RunResult.ok E_OK s

/-- `action_help`, pwr.c lines 255-268: prints help text (elided), returns
`E_OK`. -/
def action_help (s : Sys) : RunResult Nat :=
  RunResult.ok E_OK s

/-- Dispatch on the parsed action pointer: the call `flags.action()` in `main`,
pwr.c line 94. -/
def run_action (env : Env) (fl : ParsedFlags) (ruid : Nat) (s : Sys) : RunResult Nat :=
  match fl.action with
  | PAction.noneAction => action_none s
  | PAction.perform => action_perform env fl.no_restart ruid s
  | PAction.powersave => action_powersave env fl.no_restart ruid s
  | PAction.query => action_query s
  | PAction.toggle => action_toggle env fl.no_restart ruid s
  | PAction.version => action_version s
  | PAction.help => action_help s

/-- Initial process state of one invocation: the caller euid and the current
contents of `/var/lib/pwr_state` (`none` when it cannot be opened for reading). -/
def initSys (sf : Option String) (euid0 : Nat) : Sys :=
  { euid := euid0, stateFile := sf, govContents := [], launches := [], out := [] }

/-- `main`, pwr.c lines 88-95: capture `ruid = geteuid()`, parse the arguments,
return the parse error code on failure, otherwise run the selected action and
return its code. -/
def pwr_main (env : Env) (argv : List String) (euid0 : Nat) (sf : Option String) : RunResult Nat :=
  match parse_args argv with
  | Except.error e => RunResult.ok e (initSys sf euid0)
  | Except.ok fl => run_action env fl euid0 (initSys sf euid0)

/-! ## Concrete test environments -/

/-- A machine with no governor files, no external tools, one wireless interface,
and a writable state file. -/
def envBare : Env :=
  { stateFileWritable := true
    governorPaths := []
    governorOpenable := fun _ => true
    statOf := fun _ => none
    ifaces := ["wlan0"]
    forkOk := true }

/-- Like `envBare` but with one governor file that cannot be opened for
writing. -/
def envGovFail : Env :=
  { envBare with
    governorPaths := ["/sys/devices/system/cpu/cpu0/cpufreq/scaling_governor"]
    governorOpenable := fun _ => false }

/-- Like `envBare` but with no wireless interface present. -/
def envNoWl : Env :=
  { envBare with ifaces := ["lo", "eth0"] }

/-- Like `envBare` but with two governor files of which only the first can be
opened for writing. -/
def envMixed : Env :=
  { envBare with
    governorPaths := ["/sys/devices/system/cpu/cpu0/cpufreq/scaling_governor",
                      "/sys/devices/system/cpu/cpu1/cpufreq/scaling_governor"]
    governorOpenable := fun p => p == "/sys/devices/system/cpu/cpu0/cpufreq/scaling_governor" }

example : pwr_main envBare ["pwr", "query"] 1000 none =
    RunResult.exit E_PWR_STATE_READ (initSys none 1000) := by decide
example : pwr_main envBare ["pwr", "perform"] 1000 none =
    RunResult.ok E_OK { euid := 1000, stateFile := some "perform\n", govContents := [],
                        launches := [], out := [] } := by decide
example : pwr_main envBare ["pwr", "query"] 1000 (some "perform\n") =
    RunResult.ok E_OK { euid := 1000, stateFile := some "perform\n", govContents := [],
                        launches := [], out := ["perform"] } := by decide

/-! ## Parsing lemmas -/

theorem parseLoop_append (xs ys : List String) (fl : ParsedFlags) :
    parseLoop fl (xs ++ ys) =
      match parseLoop fl xs with
      | Except.ok fl2 => parseLoop fl2 ys
      | Except.error e => Except.error e := by
  induction xs generalizing fl with
  | nil => simp [parseLoop]
  | cons a rest ih =>
    simp only [List.cons_append, parseLoop]
    cases h : parseStep fl a with
    | ok fl2 => simp [ih]
    | error e => simp

theorem parseStep_of_tokenToAction (fl : ParsedFlags) (arg : String) (a : PAction)
    (h : tokenToAction arg = some a) :
    parseStep fl arg = Except.ok { fl with action := a } := by
  unfold tokenToAction at h
  unfold parseStep
  split_ifs at h ⊢ <;> simp_all

theorem parseStepCpp_agree (fl : ParsedFlags) (arg : String)
    (h : arg ∉ (["query", "qu", "toggle", "to"] : List String)) :
    parseStepCpp fl arg = parseStep fl arg := by
  simp only [List.mem_cons, List.not_mem_nil, or_false, not_or] at h
  obtain ⟨h1, h2, h3, h4⟩ := h
  have e1 : (arg == "query") = false := by simp [h1]
  have e2 : (arg == "qu") = false := by simp [h2]
  have e3 : (arg == "toggle") = false := by simp [h3]
  have e4 : (arg == "to") = false := by simp [h4]
  simp [parseStep, parseStepCpp, e1, e2, e3, e4]

theorem parseLoopCpp_agree (xs : List String) (fl : ParsedFlags)
    (h : ∀ a ∈ xs, a ∉ (["query", "qu", "toggle", "to"] : List String)) :
    parseLoopCpp fl xs = parseLoop fl xs := by
  induction xs generalizing fl with
  | nil => rfl
  | cons a rest ih =>
    simp only [parseLoop, parseLoopCpp]
    rw [parseStepCpp_agree fl a (h a (List.mem_cons_self a rest))]
    cases hs : parseStep fl a with
    | ok fl2 => exact ih fl2 (fun b hb => h b (List.mem_cons_of_mem a hb))
    | error e => rfl

/-- Claim C8 (confirmed): the seven exit codes of `enum errors` are pairwise
distinct; success is 0, a missing action token yields 1, an unrecognized
argument yields the bad-argument code 2, and the governor-write, state-write,
state-read and fork failures each have their own distinct nonzero code. -/
theorem exit_code_distinctness :
    List.Pairwise (fun a b => a ≠ b)
      [E_OK, E_NO_ACTION, E_BAD_ARG, E_CPUFREQ_WRITE, E_PWR_STATE_WRITE,
       E_PWR_STATE_READ, E_FORK_FAILED]
    ∧ E_OK = 0 ∧ E_NO_ACTION = 1 ∧ E_BAD_ARG = 2
    ∧ (∀ (env : Env) (euid0 : Nat) (sf : Option String),
        pwr_main env ["pwr"] euid0 sf = RunResult.ok E_NO_ACTION (initSys sf euid0))
    ∧ (∀ (fl : ParsedFlags) (arg : String),
        arg ∉ (["perform", "pe", "powersave", "ps", "query", "qu", "toggle", "to",
                "--help", "--version", "--norestart", "-n"] : List String) →
        parseStep fl arg = Except.error E_BAD_ARG)
    ∧ (∀ (env : Env) (euid0 : Nat) (sf : Option String),
        pwr_main env ["pwr", "--version"] euid0 sf = RunResult.ok E_OK (initSys sf euid0)) := by
  refine ⟨by decide, rfl, rfl, rfl, fun env e sf => rfl, ?_, fun env e sf => rfl⟩
  intro fl arg h
  simp only [List.mem_cons, List.not_mem_nil, or_false, not_or] at h
  obtain ⟨h1, h2, h3, h4, h5, h6, h7, h8, h9, h10, h11, h12⟩ := h
  have e1 : (arg == "perform") = false := by simp [h1]
  have e2 : (arg == "pe") = false := by simp [h2]
  have e3 : (arg == "powersave") = false := by simp [h3]
  have e4 : (arg == "ps") = false := by simp [h4]
  have e5 : (arg == "query") = false := by simp [h5]
  have e6 : (arg == "qu") = false := by simp [h6]
  have e7 : (arg == "toggle") = false := by simp [h7]
  have e8 : (arg == "to") = false := by simp [h8]
  have e9 : (arg == "--help") = false := by simp [h9]
  have e10 : (arg == "--version") = false := by simp [h10]
  have e11 : (arg == "--norestart") = false := by simp [h11]
  have e12 : (arg == "-n") = false := by simp [h12]
  simp [parseStep, e1, e2, e3, e4, e5, e6, e7, e8, e9, e10, e11, e12]

/-- Witness for C8: the concrete unrecognized token `bogus` makes the parse
step fail with `E_BAD_ARG`. -/
theorem exit_code_distinctness_witness :
    parseStep { action := PAction.noneAction, no_restart := false } "bogus" =
      Except.error E_BAD_ARG :=
  exit_code_distinctness.2.2.2.2.2.1
    { action := PAction.noneAction, no_restart := false } "bogus" (by decide)

/-- Claim C9 (corrected), counterexample: the command line `pwr query` is
accepted by the C implementation (action `query`) but rejected by the C++
implementation with `E_BAD_ARG`, so the two are not duplicates accepting the
same action tokens. -/
theorem cpp_rejects_query_cex :
    parse_args ["pwr", "query"] = Except.ok { action := PAction.query, no_restart := false }
    ∧ parse_args_cpp ["pwr", "query"] = Except.error E_BAD_ARG
    ∧ (Except.error E_BAD_ARG : Except Nat ParsedFlags) ≠
        Except.ok { action := PAction.query, no_restart := false } := by
  refine ⟨rfl, rfl, fun h => Except.noConfusion h⟩

/-- Claim C9 (amended): on every command line containing none of the tokens
`query`, `qu`, `toggle`, `to`, the C and C++ argument parsers produce identical
results (same accepted action, same no-restart flag, same bad-argument
failures). -/
theorem parsers_agree_without_query_toggle (argv : List String)
    (h : ∀ a ∈ argv, a ∉ (["query", "qu", "toggle", "to"] : List String)) :
    parse_args_cpp argv = parse_args argv := by
  unfold parse_args parse_args_cpp
  exact parseLoopCpp_agree (argv.drop 1) _ (fun a ha => h a (List.mem_of_mem_drop ha))

/-- Witness for the amended C9 at a concrete command line. -/
theorem parsers_agree_witness :
    parse_args_cpp ["pwr", "perform", "-n"] = parse_args ["pwr", "perform", "-n"] :=
  parsers_agree_without_query_toggle ["pwr", "perform", "-n"] (by decide)

/-- Claim C10 (confirmed): when the command line contains several action
tokens, parsing succeeds and the action of the last action token is the one
selected; earlier action tokens only set the function pointer, which the later
token overwrites, and the other flags are unchanged. -/
theorem last_action_token_wins (prog : String) (rest : List String) (fl : ParsedFlags)
    (tok : String) (a : PAction)
    (hp : parse_args (prog :: rest) = Except.ok fl)
    (ht : tokenToAction tok = some a) :
    parse_args (prog :: (rest ++ [tok])) = Except.ok { fl with action := a } := by
  unfold parse_args at hp ⊢
  have hp2 : parseLoop { action := PAction.noneAction, no_restart := false } rest =
      Except.ok fl := hp
  show parseLoop { action := PAction.noneAction, no_restart := false } (rest ++ [tok]) =
      Except.ok { fl with action := a }
  rw [parseLoop_append, hp2]
  simp [parseLoop, parseStep_of_tokenToAction fl tok a ht]

/-- Witness for C10: `pwr perform toggle` parses successfully and selects the
toggle action. -/
theorem last_action_token_wins_witness :
    parse_args ("pwr" :: (["perform"] ++ ["toggle"])) =
      Except.ok { action := PAction.toggle, no_restart := false } :=
  last_action_token_wins "pwr" ["perform"]
    { action := PAction.perform, no_restart := false } "toggle" PAction.toggle rfl rfl

/-- Claim C1 (corrected), counterexample: with the state file absent, a query
invocation terminates via `ehandle` with `E_PWR_STATE_READ` (5), not 0, and
prints nothing (in particular not `performance`). -/
theorem query_absent_state_cex :
    pwr_main envBare ["pwr", "query"] 1000 none =
      RunResult.exit E_PWR_STATE_READ (initSys none 1000)
    ∧ E_PWR_STATE_READ ≠ E_OK
    ∧ (initSys none 1000).out = [] :=
  ⟨rfl, by decide, rfl⟩

/-- Claim C1 (amended): for every environment and caller uid, a query
invocation with an absent or unopenable state file prints nothing and exits
with the state-read error code; the defaulting branch on pwr.c line 170 is
unreachable because `ehandle` has already exited. -/
theorem query_absent_exits_read_error (env : Env) (euid0 : Nat) :
    pwr_main env ["pwr", "query"] euid0 none =
      RunResult.exit E_PWR_STATE_READ (initSys none euid0) := rfl

/-- Claim C2 (corrected), counterexample: with the state file absent, `toggle`
invokes neither transition — it terminates with the state-read error and leaves
the state file absent — whereas the claim expects the powersave transition. -/
theorem toggle_absent_state_cex :
    pwr_main envBare ["pwr", "toggle"] 1000 none =
      RunResult.exit E_PWR_STATE_READ (initSys none 1000)
    ∧ E_PWR_STATE_READ ≠ E_OK
    ∧ (initSys none 1000).stateFile ≠ some "powersave\n" :=
  ⟨rfl, by decide, by decide⟩

/-- Claim C2 (amended): for every readable, nonempty persisted contents `c`,
`toggle` dispatches on the stripped first line: the performance transition runs
exactly when it equals `powersave`, and the powersave transition runs otherwise
(including every unknown value); an absent state file instead aborts the run
with the state-read error. -/
theorem toggle_dispatch_on_read_state (env : Env) (nr : Bool) (ruid euid0 : Nat)
    (c : String) (hne : c ≠ "") :
    (stripAtNewline c = "powersave" →
      action_toggle env nr ruid (initSys (some c) euid0) =
        action_perform env nr ruid (initSys (some c) euid0))
    ∧ (stripAtNewline c ≠ "powersave" →
      action_toggle env nr ruid (initSys (some c) euid0) =
        action_powersave env nr ruid (initSys (some c) euid0)) := by
  constructor
  · intro h
    have hb : (stripAtNewline c == "powersave") = true := by simp [h]
    simp [action_toggle, get_pwr_state, initSys, hne, RunResult.bind, hb, h]
  · intro h
    have hb : (stripAtNewline c == "powersave") = false := by simp [h]
    simp [action_toggle, get_pwr_state, initSys, hne, RunResult.bind, hb, h]

/-- Witness for the amended C2 at the concrete persisted contents
`powersave` followed by a newline. -/
theorem toggle_dispatch_witness :
    action_toggle envBare false 7 (initSys (some "powersave\n") 7) =
      action_perform envBare false 7 (initSys (some "powersave\n") 7) :=
  (toggle_dispatch_on_read_state envBare false 7 7 "powersave\n" (by decide)).1 (by decide)

/-- Claim C6 (code_bug): with no wireless-prefixed interface present,
`wlan_name` dereferences the NULL iterator (pwr.c line 120) instead of
reporting none found, so `wifi_power` crashes rather than skipping; with a
match present it does return the first `wl`-prefixed name. -/
theorem wlan_name_null_deref :
    wlan_name ["lo", "eth0"] = Except.error ()
    ∧ wifi_power envNoWl "on" (initSys none 0) = RunResult.crash (initSys none 0)
    ∧ wlan_name ["eth0", "wlan0", "wlp3s0"] = Except.ok (some "wlan0") :=
  ⟨rfl, rfl, rfl⟩

/-- Claim C7 (code_bug): because `!=` binds tighter than `&`, `binary_exists`
tests `st_mode & (S_IEXEC != 0)`, that is the others-execute bit `st_mode & 1`.
A regular file with mode 0700 (`st_mode` = 33216 octal 100700, executable by
its owner: its `S_IEXEC` bit is set) is reported unavailable, while a regular
file with mode 0001 (`st_mode` = 32769 octal 100001, not executable by its
owner) is reported available. -/
theorem binary_exists_precedence_bug :
    binary_exists (some { st_mode := 33216 }) = false
    ∧ Nat.land 33216 S_IEXEC = 64
    ∧ binary_exists (some { st_mode := 32769 }) = true :=
  ⟨by decide, by decide, by decide⟩

/-! ## State-file preservation lemmas

The actuators touch only `govContents` and `launches`; the persisted state file
changes only through `set_pwr_state`. -/

theorem bind_sf {α β : Type} (m : RunResult α) (f : α → Sys → RunResult β) (x : Option String)
    (hm : (m.sys).stateFile = x)
    (hf : ∀ (a : α) (s : Sys), (((f a s)).sys).stateFile = s.stateFile) :
    ((RunResult.bind m f).sys).stateFile = x := by
  cases m with
  | ok a s => rw [RunResult.bind, hf a s]; exact hm
  | exit c s => exact hm
  | crash s => exact hm

theorem fexecl_sf (env : Env) (args : List String) (s : Sys) :
    ((fexecl_run env args s).sys).stateFile = s.stateFile := by
  unfold fexecl_run
  split <;> rfl

theorem restart_sf (env : Env) (nr : Bool) (s : Sys) :
    ((restart_display_manager env nr s).sys).stateFile = s.stateFile := by
  unfold restart_display_manager
  split
  · exact fexecl_sf env _ s
  · rfl

theorem prime_select_sf (env : Env) (card : String) (s : Sys) :
    ((prime_select env card s).sys).stateFile = s.stateFile := by
  unfold prime_select
  split
  · exact fexecl_sf env _ s
  · rfl

theorem wifi_power_sf (env : Env) (st : String) (s : Sys) :
    ((wifi_power env st s).sys).stateFile = s.stateFile := by
  unfold wifi_power
  cases wlan_name env.ifaces with
  | error e => rfl
  | ok o =>
    cases o with
    | some name =>
      simp only []
      split
      · exact fexecl_sf env _ s
      · rfl
    | none => rfl

theorem govWriteLoop_sf (op : String → Bool) (rule : String) (paths : List String) :
    ∀ s : Sys, ((govWriteLoop op rule paths s).sys).stateFile = s.stateFile := by
  induction paths with
  | nil => intro s; rfl
  | cons p rest ih =>
    intro s
    unfold govWriteLoop
    split
    · exact ih _
    · rfl

theorem cpu_governor_sf (env : Env) (rule : String) (s : Sys) :
    ((cpu_governor env rule s).sys).stateFile = s.stateFile :=
  govWriteLoop_sf env.governorOpenable rule env.governorPaths s

theorem actuator_pass_sf (env : Env) (nr : Bool) (gov card w : String) (s : Sys) :
    ((actuator_pass env nr gov card w s).sys).stateFile = s.stateFile := by
  unfold actuator_pass
  apply bind_sf _ _ _ (cpu_governor_sf env gov s)
  intro a s1
  apply bind_sf _ _ _ (prime_select_sf env card s1)
  intro b s2
  apply bind_sf _ _ _ (wifi_power_sf env w s2)
  intro d s3
  exact restart_sf env nr s3

/-! ## Success- and failure-path lemmas for the transitions -/

theorem action_perform_ok (env : Env) (nr : Bool) (ruid : Nat) (s : Sys) (c : Nat) (s2 : Sys)
    (h : action_perform env nr ruid s = RunResult.ok c s2) :
    c = E_OK ∧ s2.euid = ruid ∧ s2.stateFile = some "perform\n" := by
  unfold action_perform at h
  cases ha : actuator_pass env nr "performance" "nvidia" "off" { s with euid := 0 } with
  | ok u s1 =>
    rw [ha] at h
    simp only [RunResult.bind] at h
    unfold set_pwr_state at h
    by_cases hw : env.stateFileWritable
    · rw [if_pos hw] at h
      simp only [RunResult.bind, RunResult.ok.injEq] at h
      obtain ⟨hc, hs⟩ := h
      refine ⟨hc.symm, ?_, ?_⟩
      · rw [← hs]
      · rw [← hs]
        show some (("perform" : String) ++ "\n") = some "perform\n"
        decide
    · rw [if_neg hw] at h
      simp only [RunResult.bind] at h
      exact absurd h (by simp)
  | exit c0 s1 =>
    rw [ha] at h
    exact absurd h (by simp [RunResult.bind])
  | crash s1 =>
    rw [ha] at h
    exact absurd h (by simp [RunResult.bind])

theorem action_powersave_ok (env : Env) (nr : Bool) (ruid : Nat) (s : Sys) (c : Nat) (s2 : Sys)
    (h : action_powersave env nr ruid s = RunResult.ok c s2) :
    c = E_OK ∧ s2.euid = ruid ∧ s2.stateFile = some "powersave\n" := by
  unfold action_powersave at h
  cases ha : actuator_pass env nr "powersave" "intel" "on" { s with euid := 0 } with
  | ok u s1 =>
    rw [ha] at h
    simp only [RunResult.bind] at h
    unfold set_pwr_state at h
    by_cases hw : env.stateFileWritable
    · rw [if_pos hw] at h
      simp only [RunResult.bind, RunResult.ok.injEq] at h
      obtain ⟨hc, hs⟩ := h
      refine ⟨hc.symm, ?_, ?_⟩
      · rw [← hs]
      · rw [← hs]
        show some (("powersave" : String) ++ "\n") = some "powersave\n"
        decide
    · rw [if_neg hw] at h
      simp only [RunResult.bind] at h
      exact absurd h (by simp)
  | exit c0 s1 =>
    rw [ha] at h
    exact absurd h (by simp [RunResult.bind])
  | crash s1 =>
    rw [ha] at h
    exact absurd h (by simp [RunResult.bind])

theorem action_perform_sf_cases (env : Env) (nr : Bool) (ruid : Nat) (s : Sys) :
    ((action_perform env nr ruid s).sys).stateFile = s.stateFile
    ∨ ((action_perform env nr ruid s).sys).stateFile = some "perform\n" := by
  unfold action_perform
  cases ha : actuator_pass env nr "performance" "nvidia" "off" { s with euid := 0 } with
  | ok u s1 =>
    have h1 : s1.stateFile = s.stateFile := by
      have h2 := actuator_pass_sf env nr "performance" "nvidia" "off" { s with euid := 0 }
      rw [ha] at h2
      exact h2
    simp only [RunResult.bind]
    unfold set_pwr_state
    by_cases hw : env.stateFileWritable
    · rw [if_pos hw]
      simp only [RunResult.bind, RunResult.sys]
      right
      rfl
    · rw [if_neg hw]
      simp only [RunResult.bind, RunResult.sys]
      left
      exact h1
  | exit c0 s1 =>
    have h2 := actuator_pass_sf env nr "performance" "nvidia" "off" { s with euid := 0 }
    rw [ha] at h2
    left
    simpa [RunResult.bind, RunResult.sys] using h2
  | crash s1 =>
    have h2 := actuator_pass_sf env nr "performance" "nvidia" "off" { s with euid := 0 }
    rw [ha] at h2
    left
    simpa [RunResult.bind, RunResult.sys] using h2

theorem action_powersave_sf_cases (env : Env) (nr : Bool) (ruid : Nat) (s : Sys) :
    ((action_powersave env nr ruid s).sys).stateFile = s.stateFile
    ∨ ((action_powersave env nr ruid s).sys).stateFile = some "powersave\n" := by
  unfold action_powersave
  cases ha : actuator_pass env nr "powersave" "intel" "on" { s with euid := 0 } with
  | ok u s1 =>
    have h1 : s1.stateFile = s.stateFile := by
      have h2 := actuator_pass_sf env nr "powersave" "intel" "on" { s with euid := 0 }
      rw [ha] at h2
      exact h2
    simp only [RunResult.bind]
    unfold set_pwr_state
    by_cases hw : env.stateFileWritable
    · rw [if_pos hw]
      simp only [RunResult.bind, RunResult.sys]
      right
      rfl
    · rw [if_neg hw]
      simp only [RunResult.bind, RunResult.sys]
      left
      exact h1
  | exit c0 s1 =>
    have h2 := actuator_pass_sf env nr "powersave" "intel" "on" { s with euid := 0 }
    rw [ha] at h2
    left
    simpa [RunResult.bind, RunResult.sys] using h2
  | crash s1 =>
    have h2 := actuator_pass_sf env nr "powersave" "intel" "on" { s with euid := 0 }
    rw [ha] at h2
    left
    simpa [RunResult.bind, RunResult.sys] using h2

theorem action_query_sf (s : Sys) : ((action_query s).sys).stateFile = s.stateFile := by
  unfold action_query get_pwr_state
  split
  · rfl
  · split
    · rfl
    · rfl

theorem action_toggle_state_values (env : Env) (nr : Bool) (ruid : Nat) (s : Sys) :
    ((action_toggle env nr ruid s).sys).stateFile = s.stateFile
    ∨ ((action_toggle env nr ruid s).sys).stateFile = some "perform\n"
    ∨ ((action_toggle env nr ruid s).sys).stateFile = some "powersave\n" := by
  unfold action_toggle get_pwr_state
  split
  · left; rfl
  · split
    · left; rfl
    · simp only [RunResult.bind]
      split
      · rcases action_perform_sf_cases env nr ruid s with h | h
        · left; exact h
        · right; left; exact h
      · rcases action_powersave_sf_cases env nr ruid s with h | h
        · left; exact h
        · right; right; exact h

theorem run_action_state_values (env : Env) (fl : ParsedFlags) (ruid : Nat) (s : Sys) :
    ((run_action env fl ruid s).sys).stateFile = s.stateFile
    ∨ ((run_action env fl ruid s).sys).stateFile = some "perform\n"
    ∨ ((run_action env fl ruid s).sys).stateFile = some "powersave\n" := by
  obtain ⟨act, nr⟩ := fl
  cases act with
  | noneAction => left; rfl
  | perform =>
    rcases action_perform_sf_cases env nr ruid s with h | h
    · left; exact h
    · right; left; exact h
  | powersave =>
    rcases action_powersave_sf_cases env nr ruid s with h | h
    · left; exact h
    · right; right; exact h
  | query => left; exact action_query_sf s
  | toggle => exact action_toggle_state_values env nr ruid s
  | version => left; rfl
  | help => left; rfl

theorem pwr_main_state_values (env : Env) (argv : List String) (euid0 : Nat) (sf : Option String) :
    ((pwr_main env argv euid0 sf).sys).stateFile = sf
    ∨ ((pwr_main env argv euid0 sf).sys).stateFile = some "perform\n"
    ∨ ((pwr_main env argv euid0 sf).sys).stateFile = some "powersave\n" := by
  unfold pwr_main
  cases parse_args argv with
  | error e => left; rfl
  | ok fl => exact run_action_state_values env fl euid0 (initSys sf euid0)

theorem govWriteLoop_all_ok (op : String → Bool) (rule : String) :
    ∀ (paths : List String), (∀ p ∈ paths, op p = true) →
      ∀ s : Sys, govWriteLoop op rule paths s =
        RunResult.ok () { s with govContents :=
          s.govContents ++ paths.map (fun p => (p, rule ++ "\n")) } := by
  intro paths
  induction paths with
  | nil => intro _ s; simp [govWriteLoop]
  | cons p rest ih =>
    intro h s
    unfold govWriteLoop
    rw [if_pos (h p (List.mem_cons_self p rest))]
    rw [ih (fun q hq => h q (List.mem_cons_of_mem p hq))]
    simp [List.append_assoc]

theorem govWriteLoop_fail (op : String → Bool) (rule : String) :
    ∀ (paths : List String), (∃ p ∈ paths, op p = false) →
      ∀ s : Sys, ∃ s2, govWriteLoop op rule paths s =
        RunResult.exit E_CPUFREQ_WRITE s2 := by
  intro paths
  induction paths with
  | nil =>
    intro h s
    rcases h with ⟨p, hp, _⟩
    exact absurd hp (List.not_mem_nil p)
  | cons p rest ih =>
    intro h s
    unfold govWriteLoop
    by_cases hp : op p = true
    · rw [if_pos hp]
      rcases h with ⟨q, hq, hqf⟩
      rcases List.mem_cons.mp hq with heq | hq2
      · subst heq; rw [hp] at hqf; exact absurd hqf (by simp)
      · exact ih ⟨q, hq2, hqf⟩ _
    · rw [if_neg hp]
      exact ⟨s, rfl⟩

/-- Claim C3 (corrected), counterexample: a fully successful performance
transition leaves the state file containing the line `perform` followed by a
newline — not the literal `performance` and not `powersave` — so the claimed
persisted-state layout is wrong for the performance profile. -/
theorem perform_writes_perform_token_cex :
    pwr_main envBare ["pwr", "perform"] 1000 none =
      RunResult.ok E_OK { euid := 1000, stateFile := some "perform\n",
                          govContents := [], launches := [], out := [] }
    ∧ ("perform\n" : String) ≠ "performance\n"
    ∧ ("perform\n" : String) ≠ "powersave\n" :=
  ⟨by decide, by decide, by decide⟩

/-- Claim C3 (amended): after every successful perform transition the state
file contains exactly the line `perform` followed by a newline, after every
successful powersave transition exactly `powersave` followed by a newline, and
no run of the program ever writes any other contents to the state file (it is
either untouched or holds one of those two values). -/
theorem state_file_contents :
    (∀ (env : Env) (nr : Bool) (ruid : Nat) (s : Sys) (c : Nat) (s2 : Sys),
        action_perform env nr ruid s = RunResult.ok c s2 →
        s2.stateFile = some "perform\n")
    ∧ (∀ (env : Env) (nr : Bool) (ruid : Nat) (s : Sys) (c : Nat) (s2 : Sys),
        action_powersave env nr ruid s = RunResult.ok c s2 →
        s2.stateFile = some "powersave\n")
    ∧ (∀ (env : Env) (argv : List String) (euid0 : Nat) (sf : Option String),
        ((pwr_main env argv euid0 sf).sys).stateFile = sf
        ∨ ((pwr_main env argv euid0 sf).sys).stateFile = some "perform\n"
        ∨ ((pwr_main env argv euid0 sf).sys).stateFile = some "powersave\n") :=
  ⟨fun env nr ruid s c s2 h => (action_perform_ok env nr ruid s c s2 h).2.2,
   fun env nr ruid s c s2 h => (action_powersave_ok env nr ruid s c s2 h).2.2,
   fun env argv euid0 sf => pwr_main_state_values env argv euid0 sf⟩

/-- Witness for the amended C3 at a concrete successful performance
transition. -/
theorem state_file_contents_witness :
    ({ euid := 1000, stateFile := some "perform\n", govContents := [],
       launches := [], out := [] } : Sys).stateFile = some "perform\n" :=
  state_file_contents.1 envBare false 1000 (initSys none 1000) E_OK
    { euid := 1000, stateFile := some "perform\n", govContents := [],
      launches := [], out := [] } (by decide)

/-- Claim C4 (corrected), counterexample: on a machine whose only governor file
cannot be opened for writing, the performance transition terminates through
`ehandle`/`exit` with `E_CPUFREQ_WRITE` while the effective uid is still 0 —
the restoring `seteuid(ruid)` on pwr.c line 217 is never reached, so the
process does terminate while still elevated (caller uid 1000). -/
theorem elevated_exit_cex :
    action_perform envGovFail false 1000 (initSys none 1000) =
      RunResult.exit E_CPUFREQ_WRITE
        { euid := 0, stateFile := none, govContents := [], launches := [], out := [] }
    ∧ (0 : Nat) ≠ 1000 :=
  ⟨by decide, by decide⟩

/-- Claim C4 (amended): the effective identity is restored to the caller
identity on every run of the perform or powersave transition that completes
successfully; when an actuator step or the state write fails, the process
instead exits from inside `ehandle` while still elevated. -/
theorem euid_restored_on_success :
    (∀ (env : Env) (nr : Bool) (ruid : Nat) (s : Sys) (c : Nat) (s2 : Sys),
        action_perform env nr ruid s = RunResult.ok c s2 → s2.euid = ruid)
    ∧ (∀ (env : Env) (nr : Bool) (ruid : Nat) (s : Sys) (c : Nat) (s2 : Sys),
        action_powersave env nr ruid s = RunResult.ok c s2 → s2.euid = ruid) :=
  ⟨fun env nr ruid s c s2 h => (action_perform_ok env nr ruid s c s2 h).2.1,
   fun env nr ruid s c s2 h => (action_powersave_ok env nr ruid s c s2 h).2.1⟩

/-- Witness for the amended C4 at a concrete successful performance
transition with caller uid 1000. -/
theorem euid_restored_witness :
    ({ euid := 1000, stateFile := some "perform\n", govContents := [],
       launches := [], out := [] } : Sys).euid = 1000 :=
  euid_restored_on_success.1 envBare false 1000 (initSys none 1000) E_OK
    { euid := 1000, stateFile := some "perform\n", govContents := [],
      launches := [], out := [] } (by decide)

/-- Claim C5 (confirmed): the CPU-governor actuator writes the requested
governor name (with the trailing newline of `fprintf("%s\n", rule)`) to every
matched per-core governor file; with zero matches it completes as a skip with
no error and no writes; and as soon as any matched file cannot be opened for
writing, the invocation terminates with `E_CPUFREQ_WRITE`. -/
theorem cpu_governor_behavior (env : Env) (rule : String) (s : Sys) :
    (env.governorPaths = [] → cpu_governor env rule s = RunResult.ok () s)
    ∧ ((∀ p ∈ env.governorPaths, env.governorOpenable p = true) →
        cpu_governor env rule s =
          RunResult.ok () { s with govContents :=
            s.govContents ++ env.governorPaths.map (fun p => (p, rule ++ "\n")) })
    ∧ ((∃ p ∈ env.governorPaths, env.governorOpenable p = false) →
        ∃ s2, cpu_governor env rule s = RunResult.exit E_CPUFREQ_WRITE s2) := by
  refine ⟨?_, ?_, ?_⟩
  · intro h
    unfold cpu_governor
    rw [h]
    rfl
  · intro h
    exact govWriteLoop_all_ok env.governorOpenable rule env.governorPaths h s
  · intro h
    exact govWriteLoop_fail env.governorOpenable rule env.governorPaths h s

/-- Witness for C5: a machine with no governor files skips, and a machine with
one writable and one unwritable governor file fails with the governor-write
code. -/
theorem cpu_governor_behavior_witness :
    cpu_governor envBare "performance" (initSys none 0) = RunResult.ok () (initSys none 0)
    ∧ ∃ s2, cpu_governor envMixed "performance" (initSys none 0) =
        RunResult.exit E_CPUFREQ_WRITE s2 :=
  ⟨(cpu_governor_behavior envBare "performance" (initSys none 0)).1 rfl,
   (cpu_governor_behavior envMixed "performance" (initSys none 0)).2.2 (by decide)⟩
